import Mathlib

/-!
Verification of the Discord watcher (`src/internal/discord/watcher.py`).

The watcher keeps an in-memory set of processed message ids
(`self.processed_messages`), classifies each inbound message in
`on_message`, notifies via an external process in `_send_notification`,
and persists the set with `_save_state` / `_load_state`.

Modelling choices:
- Message ids and user identities are `Nat` (Discord snowflakes).
- The Python `set` of processed ids together with its recording history is
  modelled as a duplicate-free `List Nat` in insertion order; `set.add` is
  `setAdd` (append when absent).  Python's builtin `set` does NOT preserve
  insertion order, so the order in which `list(self.processed_messages)`
  enumerates the elements is modelled as an arbitrary permutation of the
  set's elements, supplied as a parameter `enum`.
- The external process invoked by `_send_notification`, and any exception
  raised inside its `try` block, are modelled by the oracle `ProcBehavior`.
-/

/-- Classification outcome of `on_message` (lines 83-108): the message is
either ignored, a direct message, or a mention of the bot. -/
inductive Classification
  | ignored
  | directMessage
  | mention
deriving DecidableEq, Repr

/-- `should_notify` as a function of the classification: in `on_message`,
`should_notify` is set to `True` exactly in the DM and mention branches. -/
def worthy : Classification → Bool
  | .ignored => false
  | .directMessage => true
  | .mention => true

/-- The fields of a `discord.Message` that `on_message` inspects:
`message.author`, `message.id`, `isinstance(message.channel, DMChannel)`
and `message.mentions`. -/
structure Event where
  author : Nat
  id : Nat
  isDM : Bool
  mentions : List Nat
deriving DecidableEq, Repr

/-- The classification logic of `on_message` (lines 85-106), read off the
source in textual order:
1. `message.author == self.bot.user` → return (ignored);
2. `message.id in self.processed_messages` → return (ignored);
3. `isinstance(message.channel, discord.DMChannel)` → "DM";
4. `self.bot.user in message.mentions` → "MENTION";
5. otherwise `should_notify` stays `False` (ignored). -/
def classify (selfId : Nat) (store : List Nat) (e : Event) : Classification :=
  if e.author = selfId then .ignored
  else if e.id ∈ store then .ignored
  else if e.isDM then .directMessage
  else if selfId ∈ e.mentions then .mention
  else .ignored

/-- The five classification rules exactly as the spec states them (§4.2),
as an ordered list of guarded outcomes; rules 1, 2 and the final default
yield Ignored, rule 3 yields DirectMessage, rule 4 yields Mention. -/
def specRules : List ((Nat → List Nat → Event → Bool) × Classification) :=
  [ (fun selfId _ e => e.author == selfId, .ignored),
    (fun _ store e => store.contains e.id, .ignored),
    (fun _ _ e => e.isDM, .directMessage),
    (fun selfId _ e => e.mentions.contains selfId, .mention) ]

/-- First-match-wins evaluation of an ordered rule list; when no rule
matches, the result is Ignored (the spec's rule 5). -/
def firstMatch (selfId : Nat) (store : List Nat) (e : Event) :
    List ((Nat → List Nat → Event → Bool) × Classification) → Classification
  | [] => .ignored
  | r :: rest => if r.1 selfId store e then r.2 else firstMatch selfId store e rest

/-- The spec's classifier (§4.2): apply the five rules in order, first
match wins. -/
def classifySpec (selfId : Nat) (store : List Nat) (e : Event) : Classification :=
  firstMatch selfId store e specRules

/-- Observable outcome of `_send_notification` (lines 114-164): the mail
process exited 0 (success logged), exited non-zero (failure logged with
the process's stderr), or an exception inside the `try` block was caught
and logged.  The function returns in every case. -/
inductive NotifyResult
  | success
  | deliveryFailure (stderrText : String)
  | caughtError (msg : String)
deriving DecidableEq, Repr

/-- Oracle for the external `gt mail send` process and the `try` block of
`_send_notification`: the process runs to completion with an exit code and
stderr text, or some step inside the `try` block raises an exception. -/
inductive ProcBehavior
  | exits (code : Int) (stderrText : String)
  | raises (msg : String)
deriving DecidableEq, Repr

/-- `_send_notification` (lines 114-164): the whole body is wrapped in
`try`/`except Exception`; after `proc.communicate()`, exit code 0 logs
success and anything else logs the failure with the captured stderr; a
raised exception is caught and logged.  No exception escapes. -/
def sendNotification (pb : ProcBehavior) : NotifyResult :=
  match pb with
  | .exits code stderrText =>
      if code = 0 then .success else .deliveryFailure stderrText
  | .raises msg => .caughtError msg

/-- Python `set.add`: insert the element if absent, modelled on the
insertion-ordered duplicate-free list. -/
def setAdd (store : List Nat) (id : Nat) : List Nat :=
  if id ∈ store then store else store ++ [id]

/-- `list(self.processed_messages)[-1000:]` in `_save_state` (line 70):
the last 1000 elements of the enumeration of the set; when the set has at
most 1000 elements this is the whole enumeration. -/
def savedEntries (enumList : List Nat) : List Nat :=
  enumList.drop (enumList.length - 1000)

/-- Mutable state of the watcher that the claims mention: the in-memory
`processed_messages` set (insertion-ordered) and the list last written to
the state file by `_save_state`. -/
structure WatcherState where
  processed : List Nat
  savedFile : List Nat
deriving DecidableEq, Repr

/-- `on_message` (lines 83-112) for one inbound message: classify; when
worthy, `await self._send_notification`, then unconditionally
`self.processed_messages.add(message.id)` and `self._save_state()`.
`enum` is the arbitrary order in which `list(...)` enumerates the Python
set; the second component records whether and how the notifier ran. -/
def onMessage (selfId : Nat) (enum : List Nat → List Nat)
    (st : WatcherState) (e : Event) (pb : ProcBehavior) :
    WatcherState × Option NotifyResult :=
  match classify selfId st.processed e with
  | .ignored => (st, none)
  | _ =>
      let r := sendNotification pb
      let processed := setAdd st.processed e.id
      ({ processed := processed,
         savedFile := savedEntries (enum processed) }, some r)

/-- Folding `on_message` over a stream of inbound messages, each with its
own notifier behaviour, within one process lifetime. -/
def processEvents (selfId : Nat) (enum : List Nat → List Nat)
    (st : WatcherState) (evts : List (Event × ProcBehavior)) : WatcherState :=
  evts.foldl (fun s ep => (onMessage selfId enum s ep.1 ep.2).1) st

/-- The JSON record `_save_state` writes: an object whose
`processed_messages` field holds a list of ids; `data.get` at load time
tolerates the field being absent. -/
structure StateJson where
  processedMessages : Option (List Nat)
deriving DecidableEq, Repr

/-- What the attempt to read the state file can yield at startup: the file
is absent (`STATE_FILE.exists()` false), opening or `json.load` fails, or
a record is parsed. -/
inductive StateFileRead
  | absent
  | readFailure (msg : String)
  | parsed (j : StateJson)

/-- `_load_state` (lines 49-61): contents of `self.processed_messages`
after loading.  Absent file: the set stays empty ("starting fresh");
exception while reading or parsing: logged and reset to `set()`; parsed:
`set(data.get('processed_messages', []))`. -/
def loadState : StateFileRead → List Nat
  | .absent => []
  | .readFailure _ => []
  | .parsed j => j.processedMessages.getD []

/-- The record `_save_state` (lines 63-73) writes:
`{'processed_messages': list(self.processed_messages)[-1000:]}`, with
`enumList` the set's enumeration order. -/
def saveStateJson (enumList : List Nat) : StateJson :=
  ⟨some (savedEntries enumList)⟩

/-- `subject = f"Discord {msg_type}: {author}"` (line 127). -/
def buildSubject (msgType author : String) : String :=
  "Discord " ++ msgType ++ ": " ++ author

/-- `content = message.content[:500]` (line 123): the first 500 characters
of the message content. -/
def truncateContent (c : String) : String :=
  ⟨c.data.take 500⟩

/-- The static footer of the mail body (lines 135-139): fixed text, no
event data interpolated. -/
def footerText : String :=
  "---\nReply using Discord MCP tools:\n- Send message: mcp__discord-mcp__send_message or send_private_message\n- React: mcp__discord-mcp__add_reaction\n"

/-- The part of the mail body before the truncated content (lines 128-134). -/
def bodyHeader (msgType author authorId channelName channelId messageId : String) : String :=
  "Discord " ++ msgType ++ " received\n\nFrom: " ++ author ++ " (ID: " ++
    authorId ++ ")\nChannel: " ++ channelName ++ " (ID: " ++ channelId ++
    ")\nMessage ID: " ++ messageId ++ "\n\nContent:\n"

/-- The full mail body built in `_send_notification` (lines 128-140):
header with sender and channel details, the truncated content, a blank
line, and the fixed footer. -/
def buildBody (msgType author authorId channelName channelId messageId content : String) : String :=
  bodyHeader msgType author authorId channelName channelId messageId ++
    truncateContent content ++ ("\n\n" ++ footerText)

/-- C1: classification follows the spec's five rules in order with first
match winning (self-authored → Ignored; already processed → Ignored; DM →
DirectMessage; mentioned → Mention; otherwise Ignored), and DirectMessage
and Mention are exactly the worthy outcomes. -/
theorem classify_follows_five_rules :
    (∀ selfId store e, classify selfId store e = classifySpec selfId store e) ∧
    worthy .directMessage = true ∧ worthy .mention = true ∧
    worthy .ignored = false := by
  refine ⟨fun selfId store e => ?_, rfl, rfl, rfl⟩
  simp only [classify, classifySpec, firstMatch, specRules, beq_iff_eq,
    List.contains, List.elem_eq_mem, decide_eq_true_eq]

/-! ### Helper lemmas shared between claims -/

lemma worthy_classify_elim {selfId : Nat} {store : List Nat} {e : Event}
    (h : worthy (classify selfId store e) = true) :
    e.author ≠ selfId ∧ e.id ∉ store := by
  unfold classify at h
  split_ifs at h with h1 h2 h3 h4
  · simp [worthy] at h
  · simp [worthy] at h
  · exact ⟨h1, h2⟩
  · exact ⟨h1, h2⟩
  · simp [worthy] at h

lemma mem_setAdd {store : List Nat} {x y : Nat} (h : y ∈ store) :
    y ∈ setAdd store x := by
  unfold setAdd
  split
  · exact h
  · exact List.mem_append_left _ h

lemma nodup_setAdd {store : List Nat} {x : Nat} (h : store.Nodup) :
    (setAdd store x).Nodup := by
  unfold setAdd
  split
  · exact h
  · rename_i hx
    refine List.Nodup.append h (List.nodup_singleton x) ?_
    intro a ha hax
    simp only [List.mem_singleton] at hax
    exact hx (hax ▸ ha)

lemma mem_onMessage_processed (selfId : Nat) (enum : List Nat → List Nat)
    (st : WatcherState) (e : Event) (pb : ProcBehavior) {id : Nat}
    (h : id ∈ st.processed) :
    id ∈ (onMessage selfId enum st e pb).1.processed := by
  cases hc : classify selfId st.processed e with
  | ignored => simp only [onMessage, hc]; exact h
  | directMessage => simp only [onMessage, hc]; exact mem_setAdd h
  | mention => simp only [onMessage, hc]; exact mem_setAdd h

lemma foldl_setAdd_of_nodup (l : List Nat) :
    ∀ acc : List Nat, l.Nodup → (∀ x ∈ l, x ∉ acc) →
      List.foldl setAdd acc l = acc ++ l := by
  induction l with
  | nil => intro acc _ _; simp
  | cons x xs ih =>
      intro acc hnd hdisj
      have hx : x ∉ acc := hdisj x (List.mem_cons_self x xs)
      have step : setAdd acc x = acc ++ [x] := by simp [setAdd, hx]
      have hnd' := (List.nodup_cons.mp hnd).2
      have hxne := (List.nodup_cons.mp hnd).1
      have hdisj' : ∀ y ∈ xs, y ∉ acc ++ [x] := by
        intro y hy hmem
        rcases List.mem_append.mp hmem with hacc | hsing
        · exact hdisj y (List.mem_cons_of_mem x hy) hacc
        · simp only [List.mem_singleton] at hsing
          exact hxne (hsing ▸ hy)
      calc List.foldl setAdd acc (x :: xs)
          = List.foldl setAdd (setAdd acc x) xs := rfl
        _ = (acc ++ [x]) ++ xs := by rw [step]; exact ih _ hnd' hdisj'
        _ = acc ++ (x :: xs) := by simp

/-! ### The claims -/

/-- C2: for a worthy event, whatever the external process does (non-zero
exit, or an exception caught inside `_send_notification`), `on_message`
still adds the event id to `processed_messages`, still calls
`_save_state`, and returns normally with the notifier's result. -/
theorem worthy_event_always_recorded (selfId : Nat) (enum : List Nat → List Nat)
    (st : WatcherState) (e : Event) (pb : ProcBehavior)
    (h : worthy (classify selfId st.processed e) = true) :
    (onMessage selfId enum st e pb).1.processed = st.processed ++ [e.id] ∧
    (onMessage selfId enum st e pb).1.savedFile =
      savedEntries (enum (st.processed ++ [e.id])) ∧
    (onMessage selfId enum st e pb).2 = some (sendNotification pb) := by
  obtain ⟨-, hmem⟩ := worthy_classify_elim h
  have hadd : setAdd st.processed e.id = st.processed ++ [e.id] := by
    simp [setAdd, hmem]
  cases hc : classify selfId st.processed e with
  | ignored => rw [hc] at h; simp [worthy] at h
  | directMessage => simp [onMessage, hc, hadd]
  | mention => simp [onMessage, hc, hadd]

/-- Witness for C2: a DM from user 2 with id 5, against an empty store,
where the mail process exits 1. -/
theorem worthy_event_always_recorded_witness :
    (onMessage 1 (fun l => l) ⟨[], []⟩ ⟨2, 5, true, []⟩ (.exits 1 "boom")).1.processed
        = [] ++ [5] ∧
    (onMessage 1 (fun l => l) ⟨[], []⟩ ⟨2, 5, true, []⟩ (.exits 1 "boom")).1.savedFile
        = savedEntries ((fun l => l) ([] ++ [5])) ∧
    (onMessage 1 (fun l => l) ⟨[], []⟩ ⟨2, 5, true, []⟩ (.exits 1 "boom")).2
        = some (sendNotification (.exits 1 "boom")) :=
  worthy_event_always_recorded 1 (fun l => l) ⟨[], []⟩ ⟨2, 5, true, []⟩
    (.exits 1 "boom") (by decide)

/-- C4: `_send_notification` is total on every process behaviour: exit
code 0 yields success, a non-zero exit code yields a delivery failure
carrying the process's stderr, and an exception inside the body is caught
and reported as a result value — nothing propagates to `on_message`. -/
theorem sendNotification_never_throws (code : Int) (stderrText msg : String) :
    (code = 0 → sendNotification (.exits code stderrText) = .success) ∧
    (code ≠ 0 → sendNotification (.exits code stderrText) = .deliveryFailure stderrText) ∧
    sendNotification (.raises msg) = .caughtError msg := by
  refine ⟨fun h => ?_, fun h => ?_, rfl⟩
  · simp [sendNotification, h]
  · simp [sendNotification, h]

/-- Witness for C4: exit 0, exit 1 with stderr, and a raised exception. -/
theorem sendNotification_never_throws_witness :
    sendNotification (.exits 0 "") = .success ∧
    sendNotification (.exits 1 "rejected") = .deliveryFailure "rejected" ∧
    sendNotification (.raises "oops") = .caughtError "oops" :=
  ⟨(sendNotification_never_throws 0 "" "oops").1 rfl,
   (sendNotification_never_throws 1 "rejected" "oops").2.1 (by decide),
   (sendNotification_never_throws 1 "rejected" "oops").2.2⟩

/-- C5: persisting a set of at most 1000 identifiers (in whatever order
the set enumerates them) and loading the written record reproduces exactly
the same membership. -/
theorem dedup_roundtrip (S enumList : List Nat) (_hnd : S.Nodup)
    (hperm : enumList.Perm S) (hlen : S.length ≤ 1000) (id : Nat) :
    (id ∈ loadState (.parsed (saveStateJson enumList)) ↔ id ∈ S) := by
  have hl : enumList.length = S.length := hperm.length_eq
  simp only [loadState, saveStateJson, Option.getD_some, savedEntries]
  rw [hl, Nat.sub_eq_zero_of_le hlen, List.drop_zero]
  exact hperm.mem_iff

/-- Witness for C5: the set with elements 1, 2, 3 enumerated as 3, 1, 2. -/
theorem dedup_roundtrip_witness :
    (2 ∈ loadState (.parsed (saveStateJson [3, 1, 2])) ↔ 2 ∈ [1, 2, 3]) :=
  dedup_roundtrip [1, 2, 3] [3, 1, 2] (by decide) (by decide) (by decide) 2

/-- C6: when the state file is missing, or reading/parsing it fails with
any error, `_load_state` leaves `processed_messages` empty and returns
(startup proceeds). -/
theorem load_failure_yields_empty :
    (∀ msg, loadState (.readFailure msg) = []) ∧ loadState .absent = [] :=
  ⟨fun _ => rfl, rfl⟩

/-- C7: an event classified as Ignored leaves the watcher state (both the
in-memory set and the persisted file) untouched and never reaches
`_send_notification`. -/
theorem ignored_event_no_effect (selfId : Nat) (enum : List Nat → List Nat)
    (st : WatcherState) (e : Event) (pb : ProcBehavior)
    (h : classify selfId st.processed e = .ignored) :
    onMessage selfId enum st e pb = (st, none) := by
  simp only [onMessage, h]

/-- Witness for C7: a channel message with id 44 that does not mention the
bot, against a store holding id 7. -/
theorem ignored_event_no_effect_witness :
    onMessage 1 (fun l => l) ⟨[7], [7]⟩ ⟨2, 44, false, [3]⟩ (.exits 0 "")
      = (⟨[7], [7]⟩, none) :=
  ignored_event_no_effect 1 (fun l => l) ⟨[7], [7]⟩ ⟨2, 44, false, [3]⟩
    (.exits 0 "") (by decide)

/-- C9: within one process lifetime the in-memory `processed_messages` set
only grows: any id present in it is still present after handling any
further stream of events — the 1000-entry cap of `_save_state` truncates
only the persisted copy, never the in-memory set. -/
theorem recorded_ids_persist_in_memory (selfId : Nat) (enum : List Nat → List Nat)
    (st : WatcherState) (evts : List (Event × ProcBehavior)) (id : Nat)
    (h : id ∈ st.processed) :
    id ∈ (processEvents selfId enum st evts).processed := by
  induction evts generalizing st with
  | nil => simpa [processEvents] using h
  | cons ep rest ih =>
      simp only [processEvents, List.foldl_cons] at ih ⊢
      exact ih _ (mem_onMessage_processed selfId enum st ep.1 ep.2 h)

/-- Witness for C9: id 7 survives a DM (notify fails) and a mention
(notifier raises). -/
theorem recorded_ids_persist_in_memory_witness :
    7 ∈ (processEvents 1 (fun l => l) ⟨[7], [7]⟩
          [(⟨2, 5, true, []⟩, .exits 1 "x"), (⟨3, 6, false, [1]⟩, .raises "y")]).processed :=
  recorded_ids_persist_in_memory 1 (fun l => l) ⟨[7], [7]⟩
    [(⟨2, 5, true, []⟩, .exits 1 "x"), (⟨3, 6, false, [1]⟩, .raises "y")] 7 (by decide)

/-- C10: if the in-memory set is duplicate-free and the set enumeration is
a permutation of its elements, then after handling any event the set is
still duplicate-free, and any state record written by `_save_state` holds
pairwise-distinct identifiers — re-recording an id never produces a
duplicate entry. -/
theorem persisted_record_nodup (selfId : Nat) (enum : List Nat → List Nat)
    (st : WatcherState) (e : Event) (pb : ProcBehavior)
    (hnd : st.processed.Nodup) (henum : ∀ l, (enum l).Perm l) :
    (onMessage selfId enum st e pb).1.processed.Nodup ∧
    ((onMessage selfId enum st e pb).2 ≠ none →
      (onMessage selfId enum st e pb).1.savedFile.Nodup) := by
  have hsaved : (savedEntries (enum (setAdd st.processed e.id))).Nodup := by
    have h1 : (setAdd st.processed e.id).Nodup := nodup_setAdd hnd
    have h2 : (enum (setAdd st.processed e.id)).Nodup :=
      ((henum _).nodup_iff).mpr h1
    exact h2.sublist (List.drop_sublist _ _)
  cases hc : classify selfId st.processed e with
  | ignored => simp only [onMessage, hc]; exact ⟨hnd, by simp⟩
  | directMessage =>
      simp only [onMessage, hc]
      exact ⟨nodup_setAdd hnd, fun _ => hsaved⟩
  | mention =>
      simp only [onMessage, hc]
      exact ⟨nodup_setAdd hnd, fun _ => hsaved⟩

/-- Witness for C10: a fresh DM against the store holding id 7, with the
identity enumeration. -/
theorem persisted_record_nodup_witness :
    (onMessage 1 (fun l => l) ⟨[7], [7]⟩ ⟨2, 5, true, []⟩ (.exits 0 "")).1.processed.Nodup ∧
    ((onMessage 1 (fun l => l) ⟨[7], [7]⟩ ⟨2, 5, true, []⟩ (.exits 0 "")).2 ≠ none →
      (onMessage 1 (fun l => l) ⟨[7], [7]⟩ ⟨2, 5, true, []⟩ (.exits 0 "")).1.savedFile.Nodup) :=
  persisted_record_nodup 1 (fun l => l) ⟨[7], [7]⟩ ⟨2, 5, true, []⟩ (.exits 0 "")
    (by decide) (fun l => List.Perm.refl l)

/-- C8: the mail subject is built from the category string and the author,
and the body contains the content truncated to at most 500 characters
followed (after a blank line) by the fixed footer, which is a closed
constant not derived from any event data. -/
theorem notification_payload_spec (t a aid cn cid mid c : String) :
    buildSubject t a = "Discord " ++ t ++ ": " ++ a ∧
    (∃ p q, buildBody t a aid cn cid mid c = p ++ truncateContent c ++ q) ∧
    (truncateContent c).length ≤ 500 ∧
    (∃ p, buildBody t a aid cn cid mid c = p ++ footerText) := by
  refine ⟨rfl,
    ⟨bodyHeader t a aid cn cid mid, "\n\n" ++ footerText, rfl⟩, ?_,
    ⟨bodyHeader t a aid cn cid mid ++ truncateContent c ++ "\n\n", ?_⟩⟩
  · show (c.data.take 500).length ≤ 500
    exact List.length_take_le 500 c.data
  · rw [String.append_assoc]
    rfl

/-- C3 (refuted by the code): `_save_state` persists
`list(self.processed_messages)[-1000:]`, the tail of the Python set's
enumeration order, which is not insertion order.  Recording the 1001
distinct ids 1000, 0, 1, ..., 999 in that order and enumerating the set
in increasing numeric order (a permutation of its elements, and CPython's
actual iteration order for these small integers) persists [1, ..., 1000],
not the 1000 most recently recorded ids [0, ..., 999]: the oldest id 1000
survives and the more recent id 0 is dropped. -/
theorem save_state_not_most_recent :
    List.foldl setAdd [] (1000 :: List.range 1000) = 1000 :: List.range 1000 ∧
    (1000 :: List.range 1000).Nodup ∧
    1000 < (1000 :: List.range 1000).length ∧
    (List.range 1001).Perm (1000 :: List.range 1000) ∧
    savedEntries (List.range 1001) ≠
      (1000 :: List.range 1000).drop ((1000 :: List.range 1000).length - 1000) := by
  have hnd : (1000 :: List.range 1000).Nodup := by
    refine List.nodup_cons.mpr ⟨?_, List.nodup_range 1000⟩
    simp [List.mem_range]
  refine ⟨?_, hnd, ?_, ?_, ?_⟩
  · have h0 := foldl_setAdd_of_nodup (1000 :: List.range 1000) [] hnd
      (fun x _ hx => by simp at hx)
    rw [h0, List.nil_append]
  · simp
  · rw [show (1001 : Nat) = 1000 + 1 from rfl, List.range_succ]
    exact List.perm_append_singleton 1000 (List.range 1000)
  · intro h
    have hlhs : savedEntries (List.range 1001) = List.map Nat.succ (List.range 1000) := by
      unfold savedEntries
      rw [List.length_range]
      rw [show (1001 : Nat) - 1000 = 1 from rfl]
      rw [show (1001 : Nat) = 1000 + 1 from rfl, List.range_succ_eq_map]
      rfl
    have hrhs : (1000 :: List.range 1000).drop ((1000 :: List.range 1000).length - 1000)
        = List.range 1000 := by
      simp
    rw [hlhs, hrhs] at h
    have hmem : (1000 : Nat) ∈ List.map Nat.succ (List.range 1000) :=
      List.mem_map.mpr ⟨999, by simp [List.mem_range], rfl⟩
    rw [h] at hmem
    simp [List.mem_range] at hmem
